import Mathlib

/-!
Shallow embedding of the HTTP request/response mediation layer of the
repository: `ApiAuthService` (src/unnamed/part_000) and `ApiChatService`
(src/services/implementations/ApiChatService.ts).

Conventions of the embedding:
* JSON values are modelled by the inductive `Json`.
* The shared `TokenManager` singleton (the Token Lifecycle Coordinator) is not
  part of the sources; per its contract it stores an optional credential
  string, so its state is modelled as `TokenState := Option String` and is
  threaded explicitly through every operation.
* `fetch` is modelled by an oracle value of type `FetchOutcome α`: either the
  promise rejects with a transport error, or a response arrives whose `ok`
  flag, numeric status, body text and parsed JSON body are given by the
  constructor.  `α` is the type the call site statically ascribes to the
  parsed body (the code performs no runtime validation).
* A thrown JavaScript `Error` is modelled by `Except.error` carrying the
  error's message string.
* Every operation returns an `OpResult`: the value returned (or error
  thrown), the token state after the call, and the list of HTTP requests
  actually handed to `fetch` during the call.
-/

/-- JSON values, the runtime shape of request and response bodies. -/
inductive Json where
  | null : Json
  | bool (b : Bool) : Json
  | num (n : Int) : Json
  | str (s : String) : Json
  | arr (elems : List Json) : Json
  | obj (fields : List (String × Json)) : Json

/-- The Token Lifecycle Coordinator's state: the stored credential, or
`none` when no credential is stored.  Modelled from the spec: `TokenManager`
is not among the sources; its contract is `getCredential() → Credential |
absent`, `setCredential(Credential)`, `clearCredential()`. -/
abbrev TokenState := Option String

/-- JavaScript object property assignment `o[k] = v` on an object represented
as a key/value list: overwrite the value at an existing key in place,
otherwise append the new key at the end. -/
def objSet : List (String × String) → String → String → List (String × String)
  | [], k, v => [(k, v)]
  | p :: rest, k, v =>
      if p.1 = k then (k, v) :: rest else p :: objSet rest k v

/-- JavaScript object spread `{...base, ...extra}`: start from `base` and
assign every field of `extra` in order. -/
def mergeHeaders (base extra : List (String × String)) : List (String × String) :=
  extra.foldl (fun hs kv => objSet hs kv.1 kv.2) base

/-- The values stored in a header object under key `k` (a well-formed object
has at most one). -/
def headerValues (hs : List (String × String)) (k : String) : List String :=
  (hs.filter (fun p => p.1 = k)).map (fun p => p.2)

/-- The `RequestInit` options the operations build: HTTP verb, caller headers
and optional JSON body. -/
structure RequestOptions where
  method : String
  headers : List (String × String) := []
  body : Option Json := none

/-- A request as handed to `fetch`: full URL, verb, final header object, body
and the `credentials: 'include'` flag. -/
structure SentRequest where
  url : String
  method : String
  headers : List (String × String)
  body : Option Json
  credentialsInclude : Bool

/-- The outcome of the `fetch` call, as observed by `makeRequest`:
`netError` models a rejected promise (transport failure) with its message;
`notOk` a response with `ok` false, its numeric status and raw body text;
`ok` a response with `ok` true whose body parses to the value the call site
statically expects. -/
inductive FetchOutcome (α : Type) where
  | netError (msg : String) : FetchOutcome α
  | notOk (status : Nat) (text : String) : FetchOutcome α
  | ok (status : Nat) (body : α) : FetchOutcome α

/-- The message of the error thrown on a non-ok response:
`` `Request failed with status ${response.status}: ${text}` ``. -/
def httpErrorMessage (status : Nat) (text : String) : String :=
  "Request failed with status " ++ toString status ++ ": " ++ text

/-- Result of running one service operation: the value returned or the error
thrown, the Coordinator's token state afterwards, and the requests sent. -/
structure OpResult (β : Type) where
  result : Except String β
  token : TokenState
  sent : List SentRequest

/-- `ApiAuthService.makeRequest`: compose `url = baseUrl + endpoint`, start
headers from `Content-Type: application/json`, spread the caller's headers
over them, send with `credentials: 'include'`; throw on a non-ok response,
otherwise return the parsed JSON.  The auth executor never reads the token.
Returns the outcome together with the request handed to `fetch`. -/
def ApiAuthService.makeRequest {α : Type} (baseUrl endpoint : String)
    (options : RequestOptions) (outcome : FetchOutcome α) :
    Except String α × SentRequest :=
  let url := baseUrl ++ endpoint
  let headers := mergeHeaders [("Content-Type", "application/json")] options.headers
  let req : SentRequest :=
    { url := url, method := options.method, headers := headers,
      body := options.body, credentialsInclude := true }
  match outcome with
  | .netError msg => (Except.error msg, req)
  | .notOk status text => (Except.error (httpErrorMessage status text), req)
  | .ok _ body => (Except.ok body, req)

/-- The `{user, token}` envelope the auth endpoints return on success; the
`user` payload is arbitrary JSON (no runtime validation). -/
structure AuthEnvelope where
  user : Json
  token : String

/-- `ApiAuthService.login`: POST `/auth/login` with body
`{username, password}`; on success store `response.token` in the Coordinator
and return `response.user`; on failure rethrow with the token untouched. -/
def ApiAuthService.login (baseUrl username password : String)
    (outcome : FetchOutcome AuthEnvelope) (st : TokenState) : OpResult Json :=
  let options : RequestOptions :=
    { method := "POST",
      body := some (Json.obj
        [("username", Json.str username), ("password", Json.str password)]) }
  let r := ApiAuthService.makeRequest baseUrl "/auth/login" options outcome
  match r.1 with
  | Except.error e => { result := Except.error e, token := st, sent := [r.2] }
  | Except.ok env =>
      { result := Except.ok env.user, token := some env.token, sent := [r.2] }

/-- The registration payload; the implementation reads only `username` and
`password` from it. -/
structure RegisterRequest where
  username : String
  password : String

/-- `ApiAuthService.register`: POST `/auth/register` with body
`{username, password}` taken from `userData`; same token-store contract as
`login`. -/
def ApiAuthService.register (baseUrl : String) (userData : RegisterRequest)
    (outcome : FetchOutcome AuthEnvelope) (st : TokenState) : OpResult Json :=
  let options : RequestOptions :=
    { method := "POST",
      body := some (Json.obj
        [("username", Json.str userData.username),
         ("password", Json.str userData.password)]) }
  let r := ApiAuthService.makeRequest baseUrl "/auth/register" options outcome
  match r.1 with
  | Except.error e => { result := Except.error e, token := st, sent := [r.2] }
  | Except.ok env =>
      { result := Except.ok env.user, token := some env.token, sent := [r.2] }

/-- `ApiAuthService.logout`: POST `/auth/logout` inside `try`; the `catch`
branch calls `tokenManager.clearToken()` and swallows the error, the success
branch does nothing further, so the stored token is cleared only on the
failure path and `logout` itself never throws. -/
def ApiAuthService.logout (baseUrl : String) (outcome : FetchOutcome Json)
    (st : TokenState) : OpResult Unit :=
  let options : RequestOptions := { method := "POST" }
  let r := ApiAuthService.makeRequest baseUrl "/auth/logout" options outcome
  match r.1 with
  | Except.error _ => { result := Except.ok (), token := none, sent := [r.2] }
  | Except.ok _ => { result := Except.ok (), token := st, sent := [r.2] }

/-- `ApiAuthService.refreshToken`: POST `/auth/refresh`; on success overwrite
the stored token with `response.token` and return `response.user`; on failure
rethrow with the token untouched. -/
def ApiAuthService.refreshToken (baseUrl : String)
    (outcome : FetchOutcome AuthEnvelope) (st : TokenState) : OpResult Json :=
  let options : RequestOptions := { method := "POST" }
  let r := ApiAuthService.makeRequest baseUrl "/auth/refresh" options outcome
  match r.1 with
  | Except.error e => { result := Except.error e, token := st, sent := [r.2] }
  | Except.ok env =>
      { result := Except.ok env.user, token := some env.token, sent := [r.2] }

/-- `ApiAuthService.getCurrentUser`: GET `/auth/me` inside `try`; on success
return the user, on any failure clear the token and return `null` (modelled
as `none`).  The operation never throws. -/
def ApiAuthService.getCurrentUser (baseUrl : String)
    (outcome : FetchOutcome Json) (st : TokenState) : OpResult (Option Json) :=
  let options : RequestOptions := { method := "GET" }
  let r := ApiAuthService.makeRequest baseUrl "/auth/me" options outcome
  match r.1 with
  | Except.ok u => { result := Except.ok (some u), token := st, sent := [r.2] }
  | Except.error _ => { result := Except.ok none, token := none, sent := [r.2] }

/-- The header object built by `ApiChatService.makeRequest` step 4:
`if (token) headers['Authorization'] = `Bearer ${token}``.  JavaScript
truthiness makes both `null` and the empty string falsy, so the header is
added only for a present, nonempty token. -/
def addAuthHeader (hs : List (String × String)) (token : TokenState) :
    List (String × String) :=
  match token with
  | some t => if t ≠ "" then objSet hs "Authorization" ("Bearer " ++ t) else hs
  | none => hs

/-- `ApiChatService.makeRequest`: compose `url = baseUrl + endpoint`, read the
token from the Coordinator, start headers from
`Content-Type: application/json`, spread the caller's headers, add
`Authorization: Bearer <token>` when the token is truthy, send with
`credentials: 'include'`; throw on a non-ok response, otherwise return the
parsed JSON.  Never writes the token. -/
def ApiChatService.makeRequest {α : Type} (baseUrl endpoint : String)
    (options : RequestOptions) (st : TokenState) (outcome : FetchOutcome α) :
    Except String α × SentRequest :=
  let url := baseUrl ++ endpoint
  let headers :=
    addAuthHeader (mergeHeaders [("Content-Type", "application/json")] options.headers) st
  let req : SentRequest :=
    { url := url, method := options.method, headers := headers,
      body := options.body, credentialsInclude := true }
  match outcome with
  | .netError msg => (Except.error msg, req)
  | .notOk status text => (Except.error (httpErrorMessage status text), req)
  | .ok _ body => (Except.ok body, req)

/-- `ApiChatService.getConversations`: GET `/conversations`, result returned
unchanged. -/
def ApiChatService.getConversations (baseUrl : String) (st : TokenState)
    (outcome : FetchOutcome Json) : OpResult Json :=
  let r := ApiChatService.makeRequest baseUrl "/conversations"
    { method := "GET" } st outcome
  { result := r.1, token := st, sent := [r.2] }

/-- The conversation-creation payload.  The implementation reads only
`title`; `extra` models the additional fields a structurally typed caller may
attach to the object at runtime, which the implementation never touches. -/
structure CreateConversationRequest where
  title : String
  extra : List (String × Json) := []

/-- `ApiChatService.createConversation`: POST `/conversations` with body
`{title: request.title}`. -/
def ApiChatService.createConversation (baseUrl : String)
    (request : CreateConversationRequest) (st : TokenState)
    (outcome : FetchOutcome Json) : OpResult Json :=
  let r := ApiChatService.makeRequest baseUrl "/conversations"
    { method := "POST",
      body := some (Json.obj [("title", Json.str request.title)]) } st outcome
  { result := r.1, token := st, sent := [r.2] }

/-- `ApiChatService.updateConversation`: unconditional
`throw new Error('updateConversation method not implemented')`; nothing is
sent and the token is untouched. -/
def ApiChatService.updateConversation (_id : String) (_request : Json)
    (st : TokenState) : OpResult Json :=
  { result := Except.error "updateConversation method not implemented",
    token := st, sent := [] }

/-- `ApiChatService.deleteConversation`: unconditional
`throw new Error('deleteConversation method not implemented')`; nothing is
sent and the token is untouched. -/
def ApiChatService.deleteConversation (_id : String) (st : TokenState) :
    OpResult Json :=
  { result := Except.error "deleteConversation method not implemented",
    token := st, sent := [] }

/-- The message-sending payload.  The implementation reads only
`conversationId` and `content`; `extra` models untouched excess fields. -/
structure SendMessageRequest where
  conversationId : String
  content : String
  extra : List (String × Json) := []

/-- `ApiChatService.sendMessage`: POST `/messages` with body
`{conversationId, content}` taken from the request. -/
def ApiChatService.sendMessage (baseUrl : String)
    (request : SendMessageRequest) (st : TokenState)
    (outcome : FetchOutcome Json) : OpResult Json :=
  let r := ApiChatService.makeRequest baseUrl "/messages"
    { method := "POST",
      body := some (Json.obj
        [("conversationId", Json.str request.conversationId),
         ("content", Json.str request.content)]) } st outcome
  { result := r.1, token := st, sent := [r.2] }

/-- `ApiChatService.markMessageAsRead`: unconditional
`throw new Error('markMessageAsRead method not implemented')`; nothing is
sent and the token is untouched. -/
def ApiChatService.markMessageAsRead (_messageId : String) (st : TokenState) :
    OpResult Json :=
  { result := Except.error "markMessageAsRead method not implemented",
    token := st, sent := [] }

/-- The expert-profile update payload.  The implementation reads only `bio`
and `knowledgeBaseLinks`; `extra` models untouched excess fields. -/
structure UpdateExpertProfileRequest where
  bio : String
  knowledgeBaseLinks : List String
  extra : List (String × Json) := []

/-- `ApiChatService.updateExpertProfile`: PUT `/expert/profile` with body
`{bio, knowledgeBaseLinks}` taken from the request. -/
def ApiChatService.updateExpertProfile (baseUrl : String)
    (request : UpdateExpertProfileRequest) (st : TokenState)
    (outcome : FetchOutcome Json) : OpResult Json :=
  let r := ApiChatService.makeRequest baseUrl "/expert/profile"
    { method := "PUT",
      body := some (Json.obj
        [("bio", Json.str request.bio),
         ("knowledgeBaseLinks",
          Json.arr (request.knowledgeBaseLinks.map Json.str))]) } st outcome
  { result := r.1, token := st, sent := [r.2] }

/-- The fourteen public methods of `ApiChatService`, in source order. -/
inductive ChatOp where
  | getConversations
  | getConversation
  | createConversation
  | updateConversation
  | deleteConversation
  | getMessages
  | sendMessage
  | markMessageAsRead
  | getExpertQueue
  | claimConversation
  | unclaimConversation
  | getExpertProfile
  | updateExpertProfile
  | getExpertAssignmentHistory
deriving DecidableEq

/-- All fourteen public methods of `ApiChatService`, in source order. -/
def allChatOps : List ChatOp :=
  [ChatOp.getConversations, ChatOp.getConversation, ChatOp.createConversation,
   ChatOp.updateConversation, ChatOp.deleteConversation, ChatOp.getMessages,
   ChatOp.sendMessage, ChatOp.markMessageAsRead, ChatOp.getExpertQueue,
   ChatOp.claimConversation, ChatOp.unclaimConversation,
   ChatOp.getExpertProfile, ChatOp.updateExpertProfile,
   ChatOp.getExpertAssignmentHistory]

/-- Whether the method's body in `ApiChatService` is the unconditional
`throw new Error('<name> method not implemented')` placeholder, read off each
method's source body: true exactly for `updateConversation`,
`deleteConversation` and `markMessageAsRead`; every other method issues a
`fetch` request through `makeRequest`. -/
def ChatOp.isUnimplementedStub : ChatOp → Bool
  | .updateConversation => true
  | .deleteConversation => true
  | .markMessageAsRead => true
  | _ => false

lemma headerValues_cons (a : String × String) (hs : List (String × String))
    (k : String) :
    headerValues (a :: hs) k
      = (if a.1 = k then [a.2] else []) ++ headerValues hs k := by
  by_cases h : a.1 = k <;> simp [headerValues, h]

lemma headerValues_objSet_ne (hs : List (String × String)) {k' k : String}
    (v : String) (h : k' ≠ k) :
    headerValues (objSet hs k' v) k = headerValues hs k := by
  induction hs with
  | nil => simp [objSet, headerValues, h]
  | cons a rest ih =>
      by_cases ha : a.1 = k'
      · simp [objSet, ha, headerValues_cons, h]
      · simp [objSet, ha, headerValues_cons, ih]

lemma headerValues_objSet_self (hs : List (String × String)) (k v : String)
    (h : headerValues hs k = []) :
    headerValues (objSet hs k v) k = [v] := by
  induction hs with
  | nil => simp [objSet, headerValues]
  | cons a rest ih =>
      rw [headerValues_cons] at h
      by_cases ha : a.1 = k
      · simp [ha] at h
      · have h' : headerValues rest k = [] := by simpa [ha] using h
        simp [objSet, ha, headerValues_cons, ih h']

lemma headerValues_mergeHeaders (base extra : List (String × String))
    (k : String) :
    headerValues base k = [] → headerValues extra k = [] →
    headerValues (mergeHeaders base extra) k = [] := by
  induction extra generalizing base with
  | nil => intro hb _; simpa [mergeHeaders] using hb
  | cons a rest ih =>
      intro hb he
      rw [headerValues_cons] at he
      by_cases ha : a.1 = k
      · simp [ha] at he
      · have he' : headerValues rest k = [] := by simpa [ha] using he
        have hb' : headerValues (objSet base a.1 a.2) k = [] := by
          rw [headerValues_objSet_ne base a.2 ha]; exact hb
        have hrec := ih (objSet base a.1 a.2) hb' he'
        simpa [mergeHeaders] using hrec

lemma chat_makeRequest_sent {α : Type} (baseUrl endpoint : String)
    (options : RequestOptions) (st : TokenState) (outcome : FetchOutcome α) :
    (ApiChatService.makeRequest baseUrl endpoint options st outcome).2
      = { url := baseUrl ++ endpoint, method := options.method,
          headers := addAuthHeader
            (mergeHeaders [("Content-Type", "application/json")] options.headers) st,
          body := options.body, credentialsInclude := true } := by
  cases outcome <;> rfl

lemma auth_makeRequest_sent {α : Type} (baseUrl endpoint : String)
    (options : RequestOptions) (outcome : FetchOutcome α) :
    (ApiAuthService.makeRequest baseUrl endpoint options outcome).2
      = { url := baseUrl ++ endpoint, method := options.method,
          headers := mergeHeaders [("Content-Type", "application/json")] options.headers,
          body := options.body, credentialsInclude := true } := by
  cases outcome <;> rfl

/-- Claim C1, evaluated on the code at the failing input: a `logout()` whose
network call succeeds while the credential `"t1"` is stored leaves the
credential stored, because `clearToken()` sits only in the `catch` branch;
this contradicts the claim that the credential is absent after every
`logout()`. -/
theorem c1_logout_success_keeps_credential :
    (ApiAuthService.logout "http://localhost:3000"
      (FetchOutcome.ok 200 (Json.obj [("message", Json.str "Logged out")]))
      (some "t1")).token = some "t1" := rfl

/-- Claim C2: `getCurrentUser()` always returns (never throws); a successful
response yields the decoded user, and on either failure kind it returns the
absent-user marker `none` and the stored credential is cleared. -/
theorem c2_getCurrentUser_never_raises (baseUrl : String) (st : TokenState) :
    (∀ outcome : FetchOutcome Json, ∃ v,
      (ApiAuthService.getCurrentUser baseUrl outcome st).result = Except.ok v) ∧
    (∀ s u, (ApiAuthService.getCurrentUser baseUrl (FetchOutcome.ok s u) st).result
        = Except.ok (some u)) ∧
    (∀ msg,
      (ApiAuthService.getCurrentUser baseUrl (FetchOutcome.netError msg) st).result
          = Except.ok none
      ∧ (ApiAuthService.getCurrentUser baseUrl (FetchOutcome.netError msg) st).token
          = none) ∧
    (∀ s t,
      (ApiAuthService.getCurrentUser baseUrl (FetchOutcome.notOk s t) st).result
          = Except.ok none
      ∧ (ApiAuthService.getCurrentUser baseUrl (FetchOutcome.notOk s t) st).token
          = none) := by
  refine ⟨fun outcome => ?_, fun s u => rfl, fun msg => ⟨rfl, rfl⟩,
    fun s t => ⟨rfl, rfl⟩⟩
  cases outcome with
  | netError msg => exact ⟨none, rfl⟩
  | notOk s t => exact ⟨none, rfl⟩
  | ok s u => exact ⟨some u, rfl⟩

/-- Claim C3: after every successful `login` or `register` the Coordinator
holds exactly the `token` field of the response envelope and the call returns
the envelope's `user` field; in particular `login("alice","pw")` against a
server answering `{user:{id:"u1"}, token:"t1"}` stores `"t1"` and returns
`{id:"u1"}`. -/
theorem c3_login_register_store_token (baseUrl username password : String)
    (userData : RegisterRequest) (s : Nat) (env : AuthEnvelope)
    (st : TokenState) :
    ((ApiAuthService.login baseUrl username password
        (FetchOutcome.ok s env) st).token = some env.token
      ∧ (ApiAuthService.login baseUrl username password
        (FetchOutcome.ok s env) st).result = Except.ok env.user) ∧
    ((ApiAuthService.register baseUrl userData
        (FetchOutcome.ok s env) st).token = some env.token
      ∧ (ApiAuthService.register baseUrl userData
        (FetchOutcome.ok s env) st).result = Except.ok env.user) ∧
    ((ApiAuthService.login "http://localhost:3000" "alice" "pw"
        (FetchOutcome.ok 200
          { user := Json.obj [("id", Json.str "u1")], token := "t1" })
        none).token = some "t1"
      ∧ (ApiAuthService.login "http://localhost:3000" "alice" "pw"
        (FetchOutcome.ok 200
          { user := Json.obj [("id", Json.str "u1")], token := "t1" })
        none).result = Except.ok (Json.obj [("id", Json.str "u1")])) :=
  ⟨⟨rfl, rfl⟩, ⟨rfl, rfl⟩, ⟨rfl, rfl⟩⟩

/-- Claim C4: a failed `login` or `register` — transport error or non-ok
response — propagates the failure to the caller (the rejection's own message,
or the classified status/body message) and leaves the Coordinator's
credential exactly as it was before the call. -/
theorem c4_login_register_failure_frame
    (baseUrl username password msg text : String) (userData : RegisterRequest)
    (status : Nat) (st : TokenState) :
    ((ApiAuthService.login baseUrl username password
        (FetchOutcome.netError msg) st).token = st
      ∧ (ApiAuthService.login baseUrl username password
        (FetchOutcome.netError msg) st).result = Except.error msg) ∧
    ((ApiAuthService.login baseUrl username password
        (FetchOutcome.notOk status text) st).token = st
      ∧ (ApiAuthService.login baseUrl username password
        (FetchOutcome.notOk status text) st).result
          = Except.error (httpErrorMessage status text)) ∧
    ((ApiAuthService.register baseUrl userData
        (FetchOutcome.netError msg) st).token = st
      ∧ (ApiAuthService.register baseUrl userData
        (FetchOutcome.netError msg) st).result = Except.error msg) ∧
    ((ApiAuthService.register baseUrl userData
        (FetchOutcome.notOk status text) st).token = st
      ∧ (ApiAuthService.register baseUrl userData
        (FetchOutcome.notOk status text) st).result
          = Except.error (httpErrorMessage status text)) :=
  ⟨⟨rfl, rfl⟩, ⟨rfl, rfl⟩, ⟨rfl, rfl⟩, ⟨rfl, rfl⟩⟩

/-- Claim C5: `refreshToken()` on success overwrites the stored credential
with the response envelope's token and returns its user; on either failure
kind it propagates the failure and leaves the stored credential untouched. -/
theorem c5_refreshToken_replace_or_keep (baseUrl msg text : String)
    (status s : Nat) (env : AuthEnvelope) (st : TokenState) :
    ((ApiAuthService.refreshToken baseUrl (FetchOutcome.ok s env) st).token
        = some env.token
      ∧ (ApiAuthService.refreshToken baseUrl (FetchOutcome.ok s env) st).result
        = Except.ok env.user) ∧
    ((ApiAuthService.refreshToken baseUrl (FetchOutcome.netError msg) st).token = st
      ∧ (ApiAuthService.refreshToken baseUrl (FetchOutcome.netError msg) st).result
        = Except.error msg) ∧
    ((ApiAuthService.refreshToken baseUrl (FetchOutcome.notOk status text) st).token = st
      ∧ (ApiAuthService.refreshToken baseUrl (FetchOutcome.notOk status text) st).result
        = Except.error (httpErrorMessage status text)) :=
  ⟨⟨rfl, rfl⟩, ⟨rfl, rfl⟩, ⟨rfl, rfl⟩⟩

/-- Claim C10: when the logout network call succeeds the stored credential is
left unchanged, and the token-clearing step runs only on the failure path
(either failure kind clears it). -/
theorem c10_logout_success_frame (baseUrl msg text : String) (status : Nat)
    (body : Json) (st : TokenState) :
    (ApiAuthService.logout baseUrl (FetchOutcome.ok status body) st).token = st ∧
    (ApiAuthService.logout baseUrl (FetchOutcome.netError msg) st).token = none ∧
    (ApiAuthService.logout baseUrl (FetchOutcome.notOk status text) st).token = none :=
  ⟨rfl, rfl, rfl⟩

/-- Claim C6 counterexample: with the stored credential present but equal to
the empty string, the chat executor sends no Authorization header at all —
the claim as stated requires the entry `Bearer ` for any present
credential. -/
theorem c6_empty_credential_counterexample :
    (some "" : TokenState) ≠ none ∧
    headerValues
      ((ApiChatService.makeRequest "http://localhost:3000" "/conversations"
        { method := "GET" } (some "") (FetchOutcome.ok 200 Json.null)).2.headers)
      "Authorization" = [] ∧
    ([] : List String) ≠ ["Bearer " ++ ""] := by
  refine ⟨by simp, by rfl, by simp⟩

/-- Claim C6 (amended): for every request issued through the chat executor
whose caller headers carry no Authorization entry, a present *nonempty*
credential `t` yields exactly one Authorization header, `Bearer t`; with no
credential — or the empty-string credential, which JavaScript truthiness
treats as absent — no Authorization header is sent at all; and the auth
executor never attaches an Authorization header (its header object does not
depend on the Coordinator). -/
theorem c6_bearer_header {α : Type} (baseUrl endpoint : String)
    (options : RequestOptions) (st : TokenState) (outcome : FetchOutcome α)
    (hclean : headerValues options.headers "Authorization" = []) :
    (∀ t, st = some t → t ≠ "" →
      headerValues
        ((ApiChatService.makeRequest baseUrl endpoint options st outcome).2.headers)
        "Authorization" = ["Bearer " ++ t]) ∧
    (st = none ∨ st = some "" →
      headerValues
        ((ApiChatService.makeRequest baseUrl endpoint options st outcome).2.headers)
        "Authorization" = []) ∧
    headerValues
      ((ApiAuthService.makeRequest baseUrl endpoint options outcome).2.headers)
      "Authorization" = [] := by
  have hmerge : headerValues
      (mergeHeaders [("Content-Type", "application/json")] options.headers)
      "Authorization" = [] :=
    headerValues_mergeHeaders _ _ _ (by decide) hclean
  refine ⟨?_, ?_, ?_⟩
  · rintro t rfl ht
    rw [chat_makeRequest_sent]
    simp only [addAuthHeader, if_pos ht]
    exact headerValues_objSet_self _ _ _ hmerge
  · rintro (rfl | rfl) <;> rw [chat_makeRequest_sent] <;>
      simpa [addAuthHeader] using hmerge
  · rw [auth_makeRequest_sent]
    exact hmerge

/-- Claim C6 witness: a concrete chat request with stored credential `"t1"`
carries exactly the header `Authorization: Bearer t1`. -/
theorem c6_bearer_header_witness :
    headerValues
      ((ApiChatService.makeRequest "http://localhost:3000" "/conversations"
        { method := "GET" } (some "t1") (FetchOutcome.ok 200 Json.null)).2.headers)
      "Authorization" = ["Bearer " ++ "t1"] :=
  (c6_bearer_header "http://localhost:3000" "/conversations" { method := "GET" }
    (some "t1") (FetchOutcome.ok 200 Json.null) rfl).1 "t1" rfl (by decide)

/-- Claim C7: a chat operation whose response is non-ok with status `s` fails
with the classified message carrying `s` and the raw body text —
`getConversations` as the named instance, and the chat executor in general —
and the Coordinator's credential after the call equals its value before. -/
theorem c7_chat_error_carries_status (baseUrl endpoint text : String)
    (options : RequestOptions) (status : Nat) (st : TokenState) :
    ((ApiChatService.getConversations baseUrl st
        (FetchOutcome.notOk status text)).result
      = Except.error (httpErrorMessage status text)
      ∧ (ApiChatService.getConversations baseUrl st
        (FetchOutcome.notOk status text)).token = st) ∧
    (@ApiChatService.makeRequest Json baseUrl endpoint options st
        (FetchOutcome.notOk status text)).1
      = Except.error (httpErrorMessage status text) ∧
    httpErrorMessage status text
      = "Request failed with status " ++ toString status ++ ": " ++ text :=
  ⟨⟨rfl, rfl⟩, rfl, rfl⟩

/-- Claim C8 counterexample: counted over the fourteen public chat methods,
the unconditional not-implemented placeholders number three, not two. -/
theorem c8_three_stubs_not_two :
    (allChatOps.filter ChatOp.isUnimplementedStub).length = 3 ∧
    ¬ (allChatOps.filter ChatOp.isUnimplementedStub).length = 2 := by
  constructor <;> decide

/-- Claim C8 (amended): three domain operations — `updateConversation`,
`deleteConversation` and `markMessageAsRead` — are unimplemented
placeholders: for every input each fails with its fixed "not implemented"
message, issues no network request and leaves the token untouched. -/
theorem c8_stub_behaviour (id mid : String) (request : Json) (st : TokenState) :
    (allChatOps.filter ChatOp.isUnimplementedStub).length = 3 ∧
    ApiChatService.updateConversation id request st
      = { result := Except.error "updateConversation method not implemented",
          token := st, sent := [] } ∧
    ApiChatService.deleteConversation id st
      = { result := Except.error "deleteConversation method not implemented",
          token := st, sent := [] } ∧
    ApiChatService.markMessageAsRead mid st
      = { result := Except.error "markMessageAsRead method not implemented",
          token := st, sent := [] } :=
  ⟨by decide, rfl, rfl, rfl⟩

lemma createConversation_sent (baseUrl : String)
    (r : CreateConversationRequest) (st : TokenState)
    (outcome : FetchOutcome Json) :
    (ApiChatService.createConversation baseUrl r st outcome).sent
      = [{ url := baseUrl ++ "/conversations", method := "POST",
           headers := addAuthHeader
             (mergeHeaders [("Content-Type", "application/json")] []) st,
           body := some (Json.obj [("title", Json.str r.title)]),
           credentialsInclude := true }] := by
  have h : (ApiChatService.createConversation baseUrl r st outcome).sent
      = [(ApiChatService.makeRequest baseUrl "/conversations"
          { method := "POST",
            body := some (Json.obj [("title", Json.str r.title)]) }
          st outcome).2] := rfl
  rw [h, chat_makeRequest_sent]

lemma sendMessage_sent (baseUrl : String) (r : SendMessageRequest)
    (st : TokenState) (outcome : FetchOutcome Json) :
    (ApiChatService.sendMessage baseUrl r st outcome).sent
      = [{ url := baseUrl ++ "/messages", method := "POST",
           headers := addAuthHeader
             (mergeHeaders [("Content-Type", "application/json")] []) st,
           body := some (Json.obj
             [("conversationId", Json.str r.conversationId),
              ("content", Json.str r.content)]),
           credentialsInclude := true }] := by
  have h : (ApiChatService.sendMessage baseUrl r st outcome).sent
      = [(ApiChatService.makeRequest baseUrl "/messages"
          { method := "POST",
            body := some (Json.obj
              [("conversationId", Json.str r.conversationId),
               ("content", Json.str r.content)]) }
          st outcome).2] := rfl
  rw [h, chat_makeRequest_sent]

lemma updateExpertProfile_sent (baseUrl : String)
    (r : UpdateExpertProfileRequest) (st : TokenState)
    (outcome : FetchOutcome Json) :
    (ApiChatService.updateExpertProfile baseUrl r st outcome).sent
      = [{ url := baseUrl ++ "/expert/profile", method := "PUT",
           headers := addAuthHeader
             (mergeHeaders [("Content-Type", "application/json")] []) st,
           body := some (Json.obj
             [("bio", Json.str r.bio),
              ("knowledgeBaseLinks",
               Json.arr (r.knowledgeBaseLinks.map Json.str))]),
           credentialsInclude := true }] := by
  have h : (ApiChatService.updateExpertProfile baseUrl r st outcome).sent
      = [(ApiChatService.makeRequest baseUrl "/expert/profile"
          { method := "PUT",
            body := some (Json.obj
              [("bio", Json.str r.bio),
               ("knowledgeBaseLinks",
                Json.arr (r.knowledgeBaseLinks.map Json.str))]) }
          st outcome).2] := rfl
  rw [h, chat_makeRequest_sent]

/-- Claim C9: each body-sending domain operation builds its outgoing body
only from its allow-listed request fields — `createConversation` from
`title`, `sendMessage` from `conversationId` and `content`,
`updateExpertProfile` from `bio` and `knowledgeBaseLinks` — so any two
request objects agreeing on those fields produce identical outgoing requests
(extra fields are dropped), and the body sent is exactly the allow-listed
object. -/
theorem c9_body_allowlist (baseUrl : String) (st : TokenState)
    (outcome : FetchOutcome Json) :
    (∀ r1 r2 : CreateConversationRequest, r1.title = r2.title →
      (ApiChatService.createConversation baseUrl r1 st outcome).sent
        = (ApiChatService.createConversation baseUrl r2 st outcome).sent) ∧
    (∀ r1 r2 : SendMessageRequest,
      r1.conversationId = r2.conversationId → r1.content = r2.content →
      (ApiChatService.sendMessage baseUrl r1 st outcome).sent
        = (ApiChatService.sendMessage baseUrl r2 st outcome).sent) ∧
    (∀ r1 r2 : UpdateExpertProfileRequest,
      r1.bio = r2.bio → r1.knowledgeBaseLinks = r2.knowledgeBaseLinks →
      (ApiChatService.updateExpertProfile baseUrl r1 st outcome).sent
        = (ApiChatService.updateExpertProfile baseUrl r2 st outcome).sent) ∧
    (∀ r : CreateConversationRequest,
      (ApiChatService.createConversation baseUrl r st outcome).sent.map
          SentRequest.body
        = [some (Json.obj [("title", Json.str r.title)])]) ∧
    (∀ r : SendMessageRequest,
      (ApiChatService.sendMessage baseUrl r st outcome).sent.map
          SentRequest.body
        = [some (Json.obj
            [("conversationId", Json.str r.conversationId),
             ("content", Json.str r.content)])]) ∧
    (∀ r : UpdateExpertProfileRequest,
      (ApiChatService.updateExpertProfile baseUrl r st outcome).sent.map
          SentRequest.body
        = [some (Json.obj
            [("bio", Json.str r.bio),
             ("knowledgeBaseLinks",
              Json.arr (r.knowledgeBaseLinks.map Json.str))])]) := by
  refine ⟨?_, ?_, ?_, ?_, ?_, ?_⟩
  · intro r1 r2 h
    rw [createConversation_sent, createConversation_sent, h]
  · intro r1 r2 h1 h2
    rw [sendMessage_sent, sendMessage_sent, h1, h2]
  · intro r1 r2 h1 h2
    rw [updateExpertProfile_sent, updateExpertProfile_sent, h1, h2]
  · intro r
    rw [createConversation_sent]
    rfl
  · intro r
    rw [sendMessage_sent]
    rfl
  · intro r
    rw [updateExpertProfile_sent]
    rfl

/-- Claim C9 witness: two concrete `createConversation` requests with the
same title but different extra fields produce identical outgoing requests. -/
theorem c9_body_allowlist_witness :
    (ApiChatService.createConversation "http://localhost:3000"
      { title := "hello", extra := [("admin", Json.bool true)] } none
      (FetchOutcome.ok 200 Json.null)).sent
      = (ApiChatService.createConversation "http://localhost:3000"
        { title := "hello" } none (FetchOutcome.ok 200 Json.null)).sent :=
  (c9_body_allowlist "http://localhost:3000" none
    (FetchOutcome.ok 200 Json.null)).1
    { title := "hello", extra := [("admin", Json.bool true)] }
    { title := "hello" } rfl
